import Mathlib

/-!
Verification development for the Intelligent_Filing_Agent repository
(`graph_demo.py` and `create_test_emails.py`).

The two scripts are shallowly embedded below. Pure string/record logic is
translated directly; the HTTP and MSAL side effects are modelled by passing
the relevant remote responses (folder lists, device-flow outcomes, per-row
creation outcomes) as explicit inputs. Python string primitives used by the
scripts (`in`, `str.replace`, `str.lower`, `html.escape`, `"sep".join`,
truthiness defaults of `or` / `dict.get`) are modelled by the helper
functions at the top of the file; each helper's doc comment names the
primitive it stands for.
-/

/-- Models the Python substring test `pat in s` (case-sensitive containment). -/
def strContainsB (s pat : String) : Bool := decide (pat.data <:+: s.data)

/-- Models Python `str.lower` character-wise. `Char.toLower` lowers ASCII
letters; the classifier only compares against ASCII keywords. -/
def pyLower (s : String) : String := String.mk (s.data.map Char.toLower)

/-- Models the Python idiom `x or default` for an optional string `x`:
`None` and the empty string are falsy, so both fall back to the default. -/
def pyOrStr (o : Option String) (d : String) : String :=
  match o with
  | none => d
  | some s => if s = "" then d else s

/-- Models interpolating a possibly-`None` Python string into an f-string:
`None` prints as the text `"None"`. -/
def pyFmt (o : Option String) : String := o.getD "None"

/-- Models Python `str.replace` (for a non-empty needle) on character lists:
non-overlapping occurrences of `pat` are replaced by `rep`, scanning left to
right. The scripts only call `replace` with non-empty literal needles; for an
empty needle this model leaves the list unchanged. -/
def pyReplace (pat rep : List Char) (l : List Char) : List Char :=
  if h : pat ≠ [] ∧ pat.isPrefixOf l then
    rep ++ pyReplace pat rep (l.drop pat.length)
  else
    match l with
    | [] => []
    | c :: rest => c :: pyReplace pat rep rest
termination_by l.length
decreasing_by
  all_goals simp_wf
  all_goals
    try (have hp : pat <+: l := List.isPrefixOf_iff_prefix.mp h.2;
         have h1 : pat.length ≤ l.length := hp.length_le;
         have h2 : 0 < pat.length := List.length_pos.mpr h.1)
  all_goals omega

/-- String wrapper for `pyReplace`, modelling `s.replace(pat, rep)`. -/
def strReplace (s pat rep : String) : String := String.mk (pyReplace pat.data rep.data s.data)

/-- Models `"sep".join(xs)` from Python. -/
def pyJoin (sep : String) : List String → String
  | [] => ""
  | [x] => x
  | x :: y :: rest => x ++ sep ++ pyJoin sep (y :: rest)

namespace GraphDemo

/-- Classification labels produced by `_classify` in `graph_demo.py`
(the strings "filed" / "triage" / "skipped"). -/
inductive Label where
  | filed
  | triage
  | skipped
deriving DecidableEq, Repr

/-- Message record as selected from the Graph API in `graph_demo.py`
(`$select=id,subject,from,receivedDateTime,hasAttachments,conversationId`).
Fields that the remote API may omit are `Option`s, matching `msg.get(...)`. -/
structure Message where
  id : String := ""
  subject : Option String := none
  senderAddress : String := ""
  senderName : String := ""
  receivedDateTime : Option String := none
  hasAttachments : Option Bool := none
  conversationId : String := ""

/-- Keyword tuple from `_classify`: `("quote", "policy", "binder", "endorsement")`. -/
def keywords : List String := ["quote", "policy", "binder", "endorsement"]

/-- Embeds `_classify` from `graph_demo.py`:
`subject = (msg.get("subject") or "").lower()`;
`has_attach = bool(msg.get("hasAttachments"))`;
Filed if any keyword is a substring, else Triage if attachments or "claim",
else Skipped. `String.toLower` models Python `str.lower` (the keywords are
ASCII). -/
def «_classify» (msg : Message) : Label :=
  let subject := pyLower (msg.subject.getD "")
  let has_attach := msg.hasAttachments.getD false
  if keywords.any (fun k => strContainsB subject k) then Label.filed
  else if has_attach || strContainsB subject "claim" then Label.triage
  else Label.skipped

end GraphDemo

/-- Mail-folder entry as returned in the JSON `value` array of a
`GET /me/mailFolders` response. Accessing `vals[0]["id"]` in the scripts
presumes the `id` key, so it is a plain field. -/
structure MailFolder where
  id : String
  displayName : String := ""

/-- Body of a successful `GET /me/mailFolders` response; `value` is optional,
matching `data.get("value", [])`. -/
structure FolderListResponse where
  value : Option (List MailFolder) := none

/-- Query parameters of the folder lookup request
(`$filter` expression and `$top` cap). -/
structure ListFoldersRequest where
  filter : String
  top : Nat

namespace GraphDemo

/-- Embeds `_find_mail_folder_id` from `graph_demo.py`. The single HTTP
round-trip is modelled by taking the successful response as an argument and
returning the request parameters the function sends together with its result:
`safe = display_name.replace("\x27", "\x27\x27")`, filter
`displayName eq \x27{safe}\x27`, `$top` 10, result `vals[0]["id"] if vals
else None`. -/
def «_find_mail_folder_id» (display_name : String) (resp : FolderListResponse) :
    ListFoldersRequest × Option String :=
  let safe := strReplace display_name "\x27" "\x27\x27"
  let req : ListFoldersRequest := { filter := "displayName eq \x27" ++ safe ++ "\x27", top := 10 }
  let vals := resp.value.getD []
  (req, match vals with
        | [] => none
        | v :: _ => some v.id)

end GraphDemo

namespace CreateTestEmails

/-- Embeds `find_mail_folder_id` from `create_test_emails.py`; its body is the
same lookup as `_find_mail_folder_id` in `graph_demo.py`. -/
def find_mail_folder_id (display_name : String) (resp : FolderListResponse) :
    ListFoldersRequest × Option String :=
  let safe := strReplace display_name "\x27" "\x27\x27"
  let req : ListFoldersRequest := { filter := "displayName eq \x27" ++ safe ++ "\x27", top := 10 }
  let vals := resp.value.getD []
  (req, match vals with
        | [] => none
        | v :: _ => some v.id)

/-- Row of the seed CSV, keyed by the header columns
`Date`, `From Email`, `From Name`, `Subject`, `Email Body Preview`. -/
structure CsvRow where
  date : String
  fromEmail : String
  fromName : String
  subject : String
  bodyPreview : String

/-- Intermediate `email_data` dict built per row in
`parse_csv_and_create_emails`: the date gains the fixed `T09:00:00Z`
time-of-day suffix. -/
structure EmailData where
  date : String
  from_email : String
  from_name : String
  subject : String
  body : String

/-- Message-creation JSON payload built by `create_email_in_folder`. -/
structure EmailMessage where
  subject : String
  bodyContentType : String
  bodyContent : String
  fromAddress : String
  fromName : String
  receivedDateTime : String
  isDraft : Bool

/-- Builds `email_data` from a CSV row: `row["Date"] + "T09:00:00Z"` plus the
remaining columns verbatim. -/
def row_to_email_data (row : CsvRow) : EmailData :=
  { date := row.date ++ "T09:00:00Z"
    from_email := row.fromEmail
    from_name := row.fromName
    subject := row.subject
    body := row.bodyPreview }

/-- Embeds the payload construction in `create_email_in_folder`: body content
type `Text`, sender address/name, the row's timestamp, and `isDraft: False`. -/
def build_message (e : EmailData) : EmailMessage :=
  { subject := e.subject
    bodyContentType := "Text"
    bodyContent := e.body
    fromAddress := e.from_email
    fromName := e.from_name
    receivedDateTime := e.date
    isDraft := false }

/-- Embeds `create_email_in_folder`: posts the payload and reports whether the
response was OK. The HTTP outcome is the `ok` argument; the returned pair is
the request payload sent and the success flag (`None` from the script is
`false` here). -/
def create_email_in_folder (e : EmailData) (ok : Bool) : EmailMessage × Bool :=
  (build_message e, ok)

/-- Embeds the loop of `parse_csv_and_create_emails`. Each CSV row is paired
with the HTTP outcome of its creation request. Returns the final
`(created_count, failed_count)` and the list of payloads sent. -/
def parse_csv_and_create_emails :
    List (CsvRow × Bool) → (Nat × Nat) × List EmailMessage
  | [] => ((0, 0), [])
  | (row, ok) :: rest =>
    let e := row_to_email_data row
    let attempt := create_email_in_folder e ok
    let prev := parse_csv_and_create_emails rest
    if attempt.2 then ((prev.1.1 + 1, prev.1.2), attempt.1 :: prev.2)
    else ((prev.1.1, prev.1.2 + 1), attempt.1 :: prev.2)

end CreateTestEmails

/-- Outcome of `app.acquire_token_silent(...)` inside the `accounts` branch:
it may raise (caught and printed), return a result without an access token,
or return an access token. -/
inductive SilentOutcome where
  | exn (e : String)
  | noToken
  | token (t : String)
deriving DecidableEq, Repr

/-- Fields of the dict returned by `app.initiate_device_flow(...)` that the
scripts read: `user_code` presence, `error`, `error_description`, `message`. -/
structure DeviceFlow where
  user_code : Option String := none
  error : Option String := none
  error_description : Option String := none
  message : String := ""
deriving DecidableEq, Repr

/-- Outcome of calling `app.initiate_device_flow(...)`: an exception or a
flow dict. -/
inductive InitOutcome where
  | exn (e : String)
  | flow (f : DeviceFlow)
deriving DecidableEq, Repr

/-- Outcome of `app.acquire_token_by_device_flow(flow)`: a dict with an
`access_token`, or one carrying `error` / `error_description`. -/
inductive AcquireOutcome where
  | token (t : String)
  | failure (error : Option String) (error_description : Option String)
deriving DecidableEq, Repr

/-- Behaviour of the MSAL library for one authority in one run: the cached
accounts, the silent-acquisition outcome, the device-flow initiation outcome,
and the device-flow completion outcome. -/
structure AuthorityBehavior where
  accounts : List String := []
  silent : SilentOutcome := SilentOutcome.noToken
  init : InitOutcome := InitOutcome.flow {}
  byDeviceFlow : AcquireOutcome := AcquireOutcome.failure none none
deriving DecidableEq, Repr

/-- Token delivered by the silent (cached-account) branch, if any: the scripts
try `acquire_token_silent` only when `app.get_accounts()` is non-empty, and
use its result only when it is a dict containing `access_token`. A silent
exception is caught and ignored. -/
def silent_token (b : AuthorityBehavior) : Option String :=
  match b.accounts with
  | [] => none
  | _ :: _ =>
    match b.silent with
    | SilentOutcome.token t => some t
    | _ => none

/-- One iteration of the authority loop shared by both scripts: silent
acquisition first, then device-code initiation and completion. `Except.ok`
is an immediate `return result["access_token"]`; `Except.error d` is the
value assigned to `last_error_detail` before `continue`. -/
def try_authority (b : AuthorityBehavior) : Except String String :=
  match silent_token b with
  | some t => Except.ok t
  | none =>
    match b.init with
    | InitOutcome.exn e => Except.error ("initiate_device_flow exception: " ++ e)
    | InitOutcome.flow f =>
      match f.user_code with
      | none =>
        Except.error (pyOrStr f.error "unknown_error" ++ ": "
          ++ pyOrStr f.error_description "No description")
      | some _ =>
        match b.byDeviceFlow with
        | AcquireOutcome.token t => Except.ok t
        | AcquireOutcome.failure e d => Except.error (pyFmt e ++ ": " ++ pyFmt d)

/-- Value of `last_error_detail` after the loop has run over `bs`, starting
from `last` (the scripts start from `None`). -/
def last_detail : List AuthorityBehavior → Option String → Option String
  | [], last => last
  | b :: rest, last =>
    match try_authority b with
    | Except.ok _ => last
    | Except.error d => last_detail rest (some d)

/-- True when this authority's iteration ends without a token. -/
def authority_fails (b : AuthorityBehavior) : Bool :=
  match try_authority b with
  | Except.error _ => true
  | Except.ok _ => false

namespace GraphDemo

/-- Text of the `RuntimeError` raised by `acquire_token_with_diagnostics` in
`graph_demo.py` when both authorities are exhausted: the last failure detail
(defaulted through `or`) followed by the four-item fix checklist. -/
def fail_message (last_error_detail : Option String) : String :=
  "Failed to create/complete device flow. Details: "
    ++ pyOrStr last_error_detail "no additional info"
    ++ "\n\nFix checklist:\n  1) Azure App Registration > Authentication: \x27Allow public client flows\x27 = Yes\n  2) Supported account types include Personal Microsoft accounts (MSA)\n  3) CLIENT_ID matches the configured app\n  4) SCOPES are delegated Graph scopes only: [\x27User.Read\x27, \x27Mail.ReadWrite\x27]"

/-- Authority loop of `acquire_token_with_diagnostics` in `graph_demo.py`,
carrying `last_error_detail`. -/
def acquire_go : List AuthorityBehavior → Option String → Except String String
  | [], last => Except.error (fail_message last)
  | b :: rest, _last =>
    match try_authority b with
    | Except.ok t => Except.ok t
    | Except.error d => acquire_go rest (some d)

/-- Embeds `acquire_token_with_diagnostics` from `graph_demo.py`: the MSAL
behaviour at each configured authority (in list order) is the argument. -/
def acquire_token_with_diagnostics (bs : List AuthorityBehavior) : Except String String :=
  acquire_go bs none

end GraphDemo

namespace CreateTestEmails

/-- Text of the `RuntimeError` raised by `acquire_token_with_diagnostics` in
`create_test_emails.py` when both authorities are exhausted: it interpolates
`last_error_detail` directly and carries no fix checklist. -/
def fail_message (last_error_detail : Option String) : String :=
  "Failed to acquire token. Details: " ++ pyFmt last_error_detail

/-- Authority loop of `acquire_token_with_diagnostics` in
`create_test_emails.py`. -/
def acquire_go : List AuthorityBehavior → Option String → Except String String
  | [], last => Except.error (fail_message last)
  | b :: rest, _last =>
    match try_authority b with
    | Except.ok t => Except.ok t
    | Except.error d => acquire_go rest (some d)

/-- Embeds `acquire_token_with_diagnostics` from `create_test_emails.py`. -/
def acquire_token_with_diagnostics (bs : List AuthorityBehavior) : Except String String :=
  acquire_go bs none

end CreateTestEmails

/-- Replacement list for one character under Python
`html.escape(s, quote=True)`: `&` to `&amp;`, `<` to `&lt;`, `>` to `&gt;`,
`"` to `&quot;`, the single quote to `&#x27;`, anything else unchanged.
Because no replacement text contains a character that a later pass replaces,
CPython's sequential `str.replace` passes coincide with this character-wise
map. -/
def escapeChar (c : Char) : List Char :=
  if c = '&' then ['&', 'a', 'm', 'p', ';']
  else if c = '<' then ['&', 'l', 't', ';']
  else if c = '>' then ['&', 'g', 't', ';']
  else if c = '"' then ['&', 'q', 'u', 'o', 't', ';']
  else if c = '\x27' then ['&', '#', 'x', '2', '7', ';']
  else [c]

/-- Models Python `html.escape(s, quote=True)` as used by the renderer. -/
def html_escape (s : String) : String := String.mk (s.data.flatMap escapeChar)

/-- Safety invariant for the injection proof: the character list neither
contains `<script>` nor ends in a non-empty prefix of `<script>` (so no
occurrence can start inside it and finish in a later fragment). -/
def SafeFrag (l : List Char) : Prop :=
  ¬ ("<script>".data <:+: l)
  ∧ ∀ s ∈ l.tails, s ≠ [] → ¬ (s <+: "<script>".data)

instance (l : List Char) : Decidable (SafeFrag l) := by
  unfold SafeFrag
  infer_instance

/-- Digit value of an ASCII digit character, used by the timestamp parser. -/
def digitVal? (c : Char) : Option Nat :=
  if c.isDigit then some (c.toNat - 48) else none

/-- Reads exactly two digits. -/
def read2 : List Char → Option (Nat × List Char)
  | a :: b :: rest =>
    match digitVal? a, digitVal? b with
    | some x, some y => some (10 * x + y, rest)
    | _, _ => none
  | _ => none

/-- Reads exactly four digits. -/
def read4 : List Char → Option (Nat × List Char)
  | a :: b :: c :: d :: rest =>
    match digitVal? a, digitVal? b, digitVal? c, digitVal? d with
    | some x, some y, some z, some w => some (1000 * x + 100 * y + 10 * z + w, rest)
    | _, _, _, _ => none
  | _ => none

/-- Consumes one expected character. -/
def expectChar (c : Char) : List Char → Option (List Char)
  | x :: rest => if x = c then some rest else none
  | [] => none

/-- Gregorian leap-year rule, as validated by `datetime`. -/
def is_leap (y : Nat) : Bool :=
  y % 4 == 0 && (y % 100 != 0 || y % 400 == 0)

/-- Days in a month, as validated by the `datetime` constructor. -/
def days_in_month (y m : Nat) : Nat :=
  if m = 2 then (if is_leap y then 29 else 28)
  else if m = 4 ∨ m = 6 ∨ m = 9 ∨ m = 11 then 30
  else 31

/-- Fields of a parsed `datetime.datetime`: date, time, and the fixed-offset
timezone in minutes (`none` for a naive value). -/
structure PyDateTime where
  year : Nat
  month : Nat
  day : Nat
  hour : Nat := 0
  minute : Nat := 0
  second : Nat := 0
  utcoffset : Option Int := none
deriving DecidableEq, Repr

/-- Parses a `±HH:MM` / `±HHMM` / `±HH` timezone suffix into signed minutes,
given the already-consumed sign character. Offsets must stay strictly below
24 hours, as `datetime.timezone` requires. -/
def parse_hhmm_offset (sign : Char) (l : List Char) : Option Int := do
  let (oh, r1) ← read2 l
  let (om, r2) ←
    match r1 with
    | ':' :: r => read2 r
    | [] => some (0, ([] : List Char))
    | _ => read2 r1
  guard (r2 = [])
  guard (om ≤ 59)
  let total : Int := (oh : Int) * 60 + (om : Int)
  guard (total < 1440)
  if sign = '-' then some (-total) else some total

/-- Parses the time-of-day part `HH:MM[:SS[.ffffff]][±HH:MM]` accepted by
`datetime.fromisoformat` (fractional seconds are validated and dropped, as
the rendering never shows them). -/
def parse_time (l : List Char) : Option (Nat × Nat × Nat × Option Int) := do
  let (h, r1) ← read2 l
  let r2 ← expectChar ':' r1
  let (mi, r3) ← read2 r2
  let (sec, r4) ←
    match r3 with
    | ':' :: rest => do
      let (s2, r) ← read2 rest
      match r with
      | c :: rest2 =>
        if c = '.' ∨ c = ',' then
          let ds := rest2.takeWhile (fun d => d.isDigit)
          if ds.isEmpty then none
          else some (s2, rest2.drop ds.length)
        else some (s2, (c :: rest2))
      | [] => some (s2, ([] : List Char))
    | _ => some ((0 : Nat), r3)
  let off ←
    match r4 with
    | [] => some (none : Option Int)
    | c :: rest =>
      if c = '+' ∨ c = '-' then
        match parse_hhmm_offset c rest with
        | some o => some (some o)
        | none => none
      else none
  guard (h ≤ 23)
  guard (mi ≤ 59)
  guard (sec ≤ 59)
  some (h, mi, sec, off)

/-- Models `datetime.fromisoformat` on the extended ISO-8601 forms the script
can meet (`YYYY-MM-DD`, optionally a separator character and a time of day
with optional fractional seconds and offset). Field ranges are validated as
the `datetime` constructor does; year 0000 is rejected. -/
def parse_iso (s : String) : Option PyDateTime := do
  let l := s.data
  let (y, r1) ← read4 l
  let r2 ← expectChar '-' r1
  let (mo, r3) ← read2 r2
  let r4 ← expectChar '-' r3
  let (d, r5) ← read2 r4
  guard (1 ≤ y)
  guard (1 ≤ mo ∧ mo ≤ 12)
  guard (1 ≤ d ∧ d ≤ days_in_month y mo)
  match r5 with
  | [] => some { year := y, month := mo, day := d }
  | _sep :: tr => do
    let (h, mi, sec, off) ← parse_time tr
    some { year := y, month := mo, day := d, hour := h, minute := mi,
           second := sec, utcoffset := off }

/-- Civil date of a day count relative to 1970-01-01 (proleptic Gregorian),
the classic era-based algorithm used to model `datetime` day arithmetic. -/
def civil_from_days (z0 : Int) : Int × Int × Int :=
  let z := z0 + 719468
  let era := z / 146097
  let doe := z % 146097
  let yoe := (doe - doe / 1460 + doe / 36524 - doe / 146096) / 365
  let y := yoe + era * 400
  let doy := doe - (365 * yoe + yoe / 4 - yoe / 100)
  let mp := (5 * doy + 2) / 153
  let d := doy - (153 * mp + 2) / 5 + 1
  let m := if mp < 10 then mp + 3 else mp - 9
  (if m ≤ 2 then y + 1 else y, m, d)

/-- Day count of a civil date relative to 1970-01-01, inverse of
`civil_from_days` on valid dates. -/
def days_from_civil (y m d : Int) : Int :=
  let y2 := if m ≤ 2 then y - 1 else y
  let era := y2 / 400
  let yoe := y2 - era * 400
  let mp := if m ≤ 2 then m + 9 else m - 3
  let doy := (153 * mp + 2) / 5 + d - 1
  let doe := yoe * 365 + yoe / 4 - yoe / 100 + doy
  era * 146097 + doe - 719468

/-- Minutes since the epoch of the wall-clock fields of a parsed datetime
(seconds and fractions do not move the displayed minute, since all modelled
offsets are whole minutes). -/
def to_epoch_minutes (dt : PyDateTime) : Int :=
  days_from_civil (dt.year : Int) (dt.month : Int) (dt.day : Int) * 1440
    + (dt.hour : Int) * 60 + (dt.minute : Int)

/-- Models `dt.astimezone(timezone.utc)`: subtract the datetime's own offset,
or the process-local offset when the value is naive (CPython interprets naive
datetimes as local time). Returns the UTC epoch minutes, or `none` when the
result leaves the `datetime` year range 1..9999 (CPython raises
`OverflowError`, which `_iso_to_display` catches). -/
def astimezone_utc (local_offset : Int) (dt : PyDateTime) : Option Int :=
  let off := dt.utcoffset.getD local_offset
  let tot := to_epoch_minutes dt - off
  if 1 ≤ (civil_from_days (tot / 1440)).1 ∧ (civil_from_days (tot / 1440)).1 ≤ 9999 then
    some tot
  else none

/-- Two-digit zero-padded decimal, modelling `strftime` `%m` `%d` `%H` `%M`
for in-range values. -/
def pad2 (n : Nat) : String :=
  String.mk [Char.ofNat (48 + n / 10 % 10), Char.ofNat (48 + n % 10)]

/-- Four-digit zero-padded decimal, modelling `strftime` `%Y` for the
guarded year range. -/
def pad4 (n : Nat) : String :=
  String.mk [Char.ofNat (48 + n / 1000 % 10), Char.ofNat (48 + n / 100 % 10),
             Char.ofNat (48 + n / 10 % 10), Char.ofNat (48 + n % 10)]

/-- Models `dt.strftime("%Y-%m-%d %H:%M UTC")` on a UTC epoch-minutes
value. -/
def strftime_display (tot : Int) : String :=
  let c := civil_from_days (tot / 1440)
  let rem := tot % 1440
  pad4 c.1.toNat ++ "-" ++ pad2 c.2.1.toNat ++ "-" ++ pad2 c.2.2.toNat
    ++ " " ++ pad2 (rem / 60).toNat ++ ":" ++ pad2 (rem % 60).toNat ++ " UTC"

namespace GraphDemo

/-- Embeds `_iso_to_display` from `graph_demo.py`: empty or missing input
renders as the empty string; otherwise every `Z` is replaced by `+00:00`,
the result is parsed, converted to UTC, and formatted; any parse or
conversion failure (the `except` branch) returns the original string.
`local_offset` stands for the system timezone used by `astimezone` on naive
values. -/
def «_iso_to_display» (local_offset : Int) (s : Option String) : String :=
  match s with
  | none => ""
  | some str =>
    if str = "" then ""
    else
      match parse_iso (strReplace str "Z" "+00:00") with
      | none => str
      | some dt =>
        match astimezone_utc local_offset dt with
        | none => str
        | some tot => strftime_display tot

/-- Row dict consumed by `render_tailwind_dashboard` (built in `main`):
`status` is one of the three labels (the renderer indexes a dict with it),
and the remaining keys are read with `.get` defaults. -/
structure Row where
  status : Label
  subject : Option String := none
  filed_dir : Option String := none
  timestamp : Option String := none

/-- Display string for a label:
`{"filed": "Filed", "triage": "Triage", "skipped": "Skipped"}[m["status"]]`. -/
def status_label : Label → String
  | Label.filed => "Filed"
  | Label.triage => "Triage"
  | Label.skipped => "Skipped"

/-- Embeds one `rows_html.append(...)` table row from
`render_tailwind_dashboard`: every user-controlled text (status label,
subject, folder name, timestamp) passes through `html.escape`. -/
def render_row (folder_display : String) (m : Row) : String :=
  "<tr>"
  ++ "<td class=\x27p-4\x27><span class=\x27status-badge inline-block px-2 py-1 rounded-full text-xs bg-gray-100\x27>"
  ++ html_escape (status_label m.status)
  ++ "</span></td>"
  ++ "<td class=\x27p-4\x27>" ++ html_escape (m.subject.getD "") ++ "</td>"
  ++ "<td class=\x27p-4\x27>" ++ html_escape (m.filed_dir.getD folder_display) ++ "</td>"
  ++ "<td class=\x27p-4\x27>" ++ html_escape (m.timestamp.getD "") ++ "</td>"
  ++ "</tr>"

/-- Placeholder row emitted when no messages were processed. -/
def placeholder_row : String :=
  "<tr><td colspan=\x274\x27 class=\x27text-center text-gray-500 py-4\x27>No emails were processed.</td></tr>"

/-- The `rows_block` injected into the template: the placeholder for an empty
input, otherwise the rendered rows joined with newlines. -/
def rows_block (folder_display : String) (messages : List Row) : String :=
  match messages with
  | [] => placeholder_row
  | _ :: _ => pyJoin "\n" (messages.map (render_row folder_display))

/-- Embeds the template substitution of `render_tailwind_dashboard`: the
run timestamp replaces the `RUN_TIME` brace marker, then the rows block
replaces the report-data comment marker; `run_time` is the formatted
`datetime.now` value of the run. The template text and output writing are
modelled as the input and return string. -/
def render_tailwind_dashboard (tpl : String) (run_time : String)
    (messages : List Row) (folder_display : String) : String :=
  strReplace (strReplace tpl "{RUN_TIME}" run_time)
    "<!-- REPORT_DATA -->" (rows_block folder_display messages)

end GraphDemo

/-- For a single-character needle, Python `str.replace` is exactly the
character-wise substitution. -/
theorem pyReplace_single (q : Char) (rep : List Char) (l : List Char) :
    pyReplace [q] rep l = l.flatMap (fun c => if c = q then rep else [c]) := by
  induction l with
  | nil => rw [pyReplace.eq_def]; simp
  | cons c rest ih =>
    rw [pyReplace.eq_def]
    by_cases hc : c = q
    · subst hc
      rw [dif_pos ⟨by simp, by simp [List.isPrefixOf]⟩]
      simp [ih]
    · rw [dif_neg (by simp [List.isPrefixOf, Ne.symm hc])]
      simp only [List.flatMap_cons]
      rw [if_neg hc]
      simp [ih]

/-- C1: for every message record whose lower-cased subject contains any of the
substrings "quote", "policy", "binder", or "endorsement", the classifier
returns the Filed label, regardless of the has-attachments flag and of
whether the subject also contains "claim". -/
theorem C1_filed_keyword_priority (msg : GraphDemo.Message)
    (h : ∃ k ∈ GraphDemo.keywords,
      strContainsB (pyLower (msg.subject.getD "")) k = true) :
    GraphDemo.«_classify» msg = GraphDemo.Label.filed := by
  obtain ⟨k, hk, hc⟩ := h
  unfold GraphDemo.«_classify»
  have hany : GraphDemo.keywords.any
      (fun k => strContainsB (pyLower (msg.subject.getD "")) k) = true :=
    List.any_eq_true.mpr ⟨k, hk, hc⟩
  simp only [hany, if_true]

/-- Witness for C1: subject "Auto Policy Renewal Quote" with an attachment is
still Filed. -/
theorem C1_filed_keyword_priority_witness :
    GraphDemo.«_classify»
      { subject := some "Auto Policy Renewal Quote CLAIM", hasAttachments := some true }
      = GraphDemo.Label.filed :=
  C1_filed_keyword_priority
    { subject := some "Auto Policy Renewal Quote CLAIM", hasAttachments := some true }
    (by decide)

/-- C2: for every message record whose lower-cased subject contains none of the
Filed keywords, the classifier returns Triage iff the has-attachments flag is
set or the lower-cased subject contains "claim"; every other such record is
Skipped; and a missing subject is classified exactly like the empty subject. -/
theorem C2_triage_iff_attachments_or_claim (msg : GraphDemo.Message)
    (h : ∀ k ∈ GraphDemo.keywords,
      strContainsB (pyLower (msg.subject.getD "")) k = false) :
    (GraphDemo.«_classify» msg = GraphDemo.Label.triage ↔
      (msg.hasAttachments.getD false = true ∨
        strContainsB (pyLower (msg.subject.getD "")) "claim" = true))
    ∧ (msg.hasAttachments.getD false = false →
        strContainsB (pyLower (msg.subject.getD "")) "claim" = false →
        GraphDemo.«_classify» msg = GraphDemo.Label.skipped)
    ∧ (msg.subject = none →
        GraphDemo.«_classify» msg = GraphDemo.«_classify» { msg with subject := some "" }) := by
  have hany : GraphDemo.keywords.any
      (fun k => strContainsB (pyLower (msg.subject.getD "")) k) = false := by
    rw [List.any_eq_false]
    intro k hk
    simp [h k hk]
  refine ⟨?_, ?_, ?_⟩
  · unfold GraphDemo.«_classify»
    simp only [hany, Bool.false_eq_true, if_false]
    cases ha : msg.hasAttachments.getD false <;>
      cases hc : strContainsB (pyLower (msg.subject.getD "")) "claim" <;>
        simp [ha, hc]
  · intro ha hc
    unfold GraphDemo.«_classify»
    simp only [hany, Bool.false_eq_true, if_false]
    simp [ha, hc]
  · intro hnone
    unfold GraphDemo.«_classify»
    rw [hnone]
    rfl

/-- Witness for C2: subject "Claim Documents" with attachments is Triage, and
"Lunch next week" without attachments is Skipped. -/
theorem C2_triage_iff_attachments_or_claim_witness :
    GraphDemo.«_classify» { subject := some "Claim Documents", hasAttachments := some true }
      = GraphDemo.Label.triage
    ∧ GraphDemo.«_classify» { subject := some "Lunch next week", hasAttachments := some false }
      = GraphDemo.Label.skipped :=
  ⟨((C2_triage_iff_attachments_or_claim
      { subject := some "Claim Documents", hasAttachments := some true }
      (by decide)).1).mpr (Or.inl (by decide)),
   (C2_triage_iff_attachments_or_claim
      { subject := some "Lunch next week", hasAttachments := some false }
      (by decide)).2.1 (by decide) (by decide)⟩

/-- C10: classification depends only on the subject field and the
has-attachments flag; two records agreeing on those two fields get the same
label regardless of sender, timestamp, conversation id, or message id. -/
theorem C10_classifier_noninterference (m1 m2 : GraphDemo.Message)
    (hs : m1.subject = m2.subject) (ha : m1.hasAttachments = m2.hasAttachments) :
    GraphDemo.«_classify» m1 = GraphDemo.«_classify» m2 := by
  unfold GraphDemo.«_classify»
  rw [hs, ha]

/-- Witness for C10: two records sharing subject and attachment flag but
differing in every other field classify identically. -/
theorem C10_classifier_noninterference_witness :
    GraphDemo.«_classify»
      { id := "a", subject := some "Claim", senderAddress := "x@y.z", senderName := "X",
        receivedDateTime := some "2024-01-01T00:00:00Z", hasAttachments := some false,
        conversationId := "c1" }
    = GraphDemo.«_classify»
      { id := "b", subject := some "Claim", senderAddress := "u@v.w", senderName := "U",
        receivedDateTime := some "2025-06-30T12:34:56Z", hasAttachments := some false,
        conversationId := "c2" } :=
  C10_classifier_noninterference _ _ rfl rfl

/-- C4: both folder resolvers double every single-quote character of the
display name before splicing it into the `$filter` expression of the list
request: the filter sent is `displayName eq ...` around the name with each
quote character replaced by two. -/
theorem C4_filter_escapes_single_quotes (name : String) (resp resp2 : FolderListResponse) :
    (GraphDemo.«_find_mail_folder_id» name resp).1.filter
      = "displayName eq \x27"
        ++ String.mk (name.data.flatMap (fun c => if c = '\x27' then ['\x27', '\x27'] else [c]))
        ++ "\x27"
    ∧ (CreateTestEmails.find_mail_folder_id name resp2).1.filter
      = "displayName eq \x27"
        ++ String.mk (name.data.flatMap (fun c => if c = '\x27' then ['\x27', '\x27'] else [c]))
        ++ "\x27" := by
  constructor
  · show "displayName eq \x27" ++ strReplace name "\x27" "\x27\x27" ++ "\x27" = _
    rw [strReplace]
    rw [show ("\x27" : String).data = ['\x27'] from rfl,
        show ("\x27\x27" : String).data = ['\x27', '\x27'] from rfl]
    rw [pyReplace_single]
  · show "displayName eq \x27" ++ strReplace name "\x27" "\x27\x27" ++ "\x27" = _
    rw [strReplace]
    rw [show ("\x27" : String).data = ['\x27'] from rfl,
        show ("\x27\x27" : String).data = ['\x27', '\x27'] from rfl]
    rw [pyReplace_single]

/-- C5: for every successful folder-list response, both resolvers return the
identifier of the first entry of the `value` array when it is non-empty, and
`none` (an explicit absence signal, not an exception) when it is empty. -/
theorem C5_first_match_or_absent (name : String) (resp : FolderListResponse) :
    (resp.value.getD [] = [] →
      (GraphDemo.«_find_mail_folder_id» name resp).2 = none
      ∧ (CreateTestEmails.find_mail_folder_id name resp).2 = none)
    ∧ (∀ f rest, resp.value.getD [] = f :: rest →
      (GraphDemo.«_find_mail_folder_id» name resp).2 = some f.id
      ∧ (CreateTestEmails.find_mail_folder_id name resp).2 = some f.id) := by
  constructor
  · intro h
    unfold GraphDemo.«_find_mail_folder_id» CreateTestEmails.find_mail_folder_id
    rw [h]
    exact ⟨rfl, rfl⟩
  · intro f rest h
    unfold GraphDemo.«_find_mail_folder_id» CreateTestEmails.find_mail_folder_id
    rw [h]
    exact ⟨rfl, rfl⟩

/-- Witness for C5: a response listing two same-name folders resolves to the
first id, and an empty response resolves to `none`. -/
theorem C5_first_match_or_absent_witness :
    (GraphDemo.«_find_mail_folder_id» "DEMO for PNC"
      { value := some [{ id := "AAA", displayName := "DEMO for PNC" },
                       { id := "BBB", displayName := "DEMO for PNC" }] }).2 = some "AAA"
    ∧ (CreateTestEmails.find_mail_folder_id "DEMO for PNC" { value := some [] }).2 = none :=
  ⟨((C5_first_match_or_absent "DEMO for PNC"
      { value := some [{ id := "AAA", displayName := "DEMO for PNC" },
                       { id := "BBB", displayName := "DEMO for PNC" }] }).2
      { id := "AAA", displayName := "DEMO for PNC" }
      [{ id := "BBB", displayName := "DEMO for PNC" }] rfl).1,
   ((C5_first_match_or_absent "DEMO for PNC" { value := some [] }).1 rfl).2⟩

/-- C6: the seeder loop processes every CSV data row even when individual
creation requests fail: one payload is sent per row, and the final created
count plus failed count equals the number of rows. -/
theorem C6_seeder_processes_all_rows (rows : List (CreateTestEmails.CsvRow × Bool)) :
    (CreateTestEmails.parse_csv_and_create_emails rows).1.1
      + (CreateTestEmails.parse_csv_and_create_emails rows).1.2
      = rows.length
    ∧ (CreateTestEmails.parse_csv_and_create_emails rows).2.length = rows.length := by
  induction rows with
  | nil => exact ⟨rfl, rfl⟩
  | cons pr rest ih =>
    obtain ⟨row, ok⟩ := pr
    obtain ⟨ih1, ih2⟩ := ih
    unfold CreateTestEmails.parse_csv_and_create_emails
    cases ok with
    | false =>
      simp only [CreateTestEmails.create_email_in_folder, Bool.false_eq_true, if_false,
        List.length_cons]
      exact ⟨by omega, by simp [ih2]⟩
    | true =>
      simp only [CreateTestEmails.create_email_in_folder, if_true, List.length_cons]
      exact ⟨by omega, by simp [ih2]⟩

/-- Containment in the right part of a concatenation. -/
theorem strContainsB_append_left (pre tail pat : String)
    (h : strContainsB tail pat = true) : strContainsB (pre ++ tail) pat = true := by
  simp only [strContainsB, decide_eq_true_eq, String.data_append] at h ⊢
  exact h.trans (List.suffix_append pre.data tail.data).isInfix

/-- A string occurs in any concatenation embedding it in the middle. -/
theorem strContainsB_middle (pre mid post : String) :
    strContainsB (pre ++ mid ++ post) mid = true := by
  simp only [strContainsB, decide_eq_true_eq, String.data_append]
  exact List.infix_append pre.data mid.data post.data

/-- When every authority iteration fails, both loops fall through to their
final error carrying the accumulated `last_error_detail`. -/
theorem acquire_go_exhausted (bs : List AuthorityBehavior) (last : Option String)
    (h : bs.all authority_fails = true) :
    GraphDemo.acquire_go bs last
      = Except.error (GraphDemo.fail_message (last_detail bs last))
    ∧ CreateTestEmails.acquire_go bs last
      = Except.error (CreateTestEmails.fail_message (last_detail bs last)) := by
  induction bs generalizing last with
  | nil => exact ⟨rfl, rfl⟩
  | cons b rest ih =>
    rw [List.all_cons, Bool.and_eq_true] at h
    have hb := h.1
    unfold authority_fails at hb
    cases htry : try_authority b with
    | ok t => rw [htry] at hb; simp at hb
    | error d =>
      have hld : last_detail (b :: rest) last = last_detail rest (some d) := by
        simp only [last_detail, htry]
      constructor
      · simp only [GraphDemo.acquire_go, htry, hld]
        exact (ih (some d) h.2).1
      · simp only [CreateTestEmails.acquire_go, htry, hld]
        exact (ih (some d) h.2).2

set_option maxRecDepth 8192 in
/-- C3 (amended): both copies of the token-acquisition procedure try the
authorities in listed order; a silent (cached-account) token is returned
immediately, otherwise a successful device-code exchange token is returned
immediately; if every authority fails, each copy raises an aggregated error
naming the last failure cause — and the classifier flow's copy additionally
carries the four remediation hints, which the seeder flow's copy does not
(see the counterexample). -/
theorem C3_auth_order_and_diagnostics :
    (∀ (b : AuthorityBehavior) (rest : List AuthorityBehavior) (t : String),
      silent_token b = some t →
      GraphDemo.acquire_token_with_diagnostics (b :: rest) = Except.ok t
      ∧ CreateTestEmails.acquire_token_with_diagnostics (b :: rest) = Except.ok t)
    ∧ (∀ (b : AuthorityBehavior) (rest : List AuthorityBehavior) (f : DeviceFlow) (u t : String),
      silent_token b = none → b.init = InitOutcome.flow f → f.user_code = some u →
      b.byDeviceFlow = AcquireOutcome.token t →
      GraphDemo.acquire_token_with_diagnostics (b :: rest) = Except.ok t
      ∧ CreateTestEmails.acquire_token_with_diagnostics (b :: rest) = Except.ok t)
    ∧ (∀ bs : List AuthorityBehavior, bs.all authority_fails = true →
      GraphDemo.acquire_token_with_diagnostics bs
        = Except.error (GraphDemo.fail_message (last_detail bs none))
      ∧ CreateTestEmails.acquire_token_with_diagnostics bs
        = Except.error (CreateTestEmails.fail_message (last_detail bs none))
      ∧ (∀ v, last_detail bs none = some v →
        strContainsB (GraphDemo.fail_message (some v)) v = true
        ∧ strContainsB (CreateTestEmails.fail_message (some v)) v = true)
      ∧ strContainsB (GraphDemo.fail_message (last_detail bs none))
          "Allow public client flows" = true
      ∧ strContainsB (GraphDemo.fail_message (last_detail bs none))
          "Personal Microsoft accounts" = true
      ∧ strContainsB (GraphDemo.fail_message (last_detail bs none))
          "CLIENT_ID matches the configured app" = true
      ∧ strContainsB (GraphDemo.fail_message (last_detail bs none))
          "SCOPES are delegated Graph scopes only" = true) := by
  refine ⟨?_, ?_, ?_⟩
  · intro b rest t h
    have htry : try_authority b = Except.ok t := by
      unfold try_authority; rw [h]
    constructor
    · unfold GraphDemo.acquire_token_with_diagnostics
      simp only [GraphDemo.acquire_go, htry]
    · unfold CreateTestEmails.acquire_token_with_diagnostics
      simp only [CreateTestEmails.acquire_go, htry]
  · intro b rest f u t hsil hinit huc hdev
    have htry : try_authority b = Except.ok t := by
      simp only [try_authority, hsil, hinit, huc, hdev]
    constructor
    · unfold GraphDemo.acquire_token_with_diagnostics
      simp only [GraphDemo.acquire_go, htry]
    · unfold CreateTestEmails.acquire_token_with_diagnostics
      simp only [CreateTestEmails.acquire_go, htry]
  · intro bs hall
    obtain ⟨h1, h2⟩ := acquire_go_exhausted bs none hall
    refine ⟨h1, h2, ?_, ?_, ?_, ?_, ?_⟩
    · intro v _
      constructor
      · by_cases hveq : v = ""
        · subst hveq
          simp [strContainsB]
        · unfold GraphDemo.fail_message
          rw [show pyOrStr (some v) "no additional info" = v by simp [pyOrStr, hveq]]
          exact strContainsB_middle _ _ _
      · unfold CreateTestEmails.fail_message
        rw [show pyFmt (some v) = v from rfl]
        simp only [strContainsB, decide_eq_true_eq, String.data_append]
        exact (List.suffix_append _ _).isInfix
    · unfold GraphDemo.fail_message
      exact strContainsB_append_left _ _ _ (by decide)
    · unfold GraphDemo.fail_message
      exact strContainsB_append_left _ _ _ (by decide)
    · unfold GraphDemo.fail_message
      exact strContainsB_append_left _ _ _ (by decide)
    · unfold GraphDemo.fail_message
      exact strContainsB_append_left _ _ _ (by decide)

set_option maxRecDepth 8192 in
/-- Counterexample for C3 as stated: the seeder flow's copy of
`acquire_token_with_diagnostics` raises an error that names the last failure
cause but contains none of the four remediation hints the claim requires. -/
theorem C3_counterexample :
    CreateTestEmails.acquire_token_with_diagnostics
      [{ accounts := [], silent := SilentOutcome.noToken,
         init := InitOutcome.flow
           { user_code := none, error := some "invalid_client",
             error_description := some "bad app" },
         byDeviceFlow := AcquireOutcome.failure none none }]
      = Except.error "Failed to acquire token. Details: invalid_client: bad app"
    ∧ strContainsB "Failed to acquire token. Details: invalid_client: bad app"
        "Allow public client flows" = false
    ∧ strContainsB "Failed to acquire token. Details: invalid_client: bad app"
        "Personal Microsoft accounts" = false
    ∧ strContainsB "Failed to acquire token. Details: invalid_client: bad app"
        "CLIENT_ID" = false
    ∧ strContainsB "Failed to acquire token. Details: invalid_client: bad app"
        "SCOPES" = false := by
  refine ⟨rfl, by decide, by decide, by decide, by decide⟩

set_option maxRecDepth 8192 in
/-- Witness for C3: a cached token short-circuits, a device-code token is
returned, and exhaustion produces the aggregated error. -/
theorem C3_auth_order_and_diagnostics_witness :
    GraphDemo.acquire_token_with_diagnostics
      [{ accounts := ["alice"], silent := SilentOutcome.token "cached-token" }]
      = Except.ok "cached-token"
    ∧ CreateTestEmails.acquire_token_with_diagnostics
      [{ accounts := [],
         init := InitOutcome.flow { user_code := some "ABC123", message := "go sign in" },
         byDeviceFlow := AcquireOutcome.token "device-token" }]
      = Except.ok "device-token"
    ∧ GraphDemo.acquire_token_with_diagnostics
      [{ init := InitOutcome.exn "ConnectionError" }]
      = Except.error (GraphDemo.fail_message
          (last_detail [{ init := InitOutcome.exn "ConnectionError" }] none)) := by
  refine ⟨?_, ?_, ?_⟩
  · exact (C3_auth_order_and_diagnostics.1
      { accounts := ["alice"], silent := SilentOutcome.token "cached-token" }
      [] "cached-token" rfl).1
  · exact (C3_auth_order_and_diagnostics.2.1
      { accounts := [],
        init := InitOutcome.flow { user_code := some "ABC123", message := "go sign in" },
        byDeviceFlow := AcquireOutcome.token "device-token" }
      [] { user_code := some "ABC123", message := "go sign in" }
      "ABC123" "device-token" rfl rfl rfl rfl).2
  · exact (C3_auth_order_and_diagnostics.2.2
      [{ init := InitOutcome.exn "ConnectionError" }] (by decide)).1

/-- Decomposition of a suffix of a concatenation: it is a suffix of the right
part, or it extends a non-empty suffix of the left part. -/
theorem suffix_append_cases {s a b : List Char} (h : s <:+ a ++ b) :
    s <:+ b ∨ ∃ s1, s1 ≠ [] ∧ s1 <:+ a ∧ s = s1 ++ b := by
  obtain ⟨u, hu⟩ := h
  rcases List.append_eq_append_iff.mp hu with ⟨a', ha1, ha2⟩ | ⟨c', _, hc2⟩
  · by_cases hn : a' = []
    · subst hn
      left
      simp only [List.nil_append] at ha2
      rw [ha2]
    · right
      exact ⟨a', hn, ⟨u, ha1.symm⟩, ha2⟩
  · left
    exact ⟨c', hc2.symm⟩

/-- Decomposition of a prefix of a concatenation: it is a prefix of the left
part, or it is the whole left part followed by a prefix of the right part. -/
theorem prefix_append_cases {p a b : List Char} (h : p <+: a ++ b) :
    p <+: a ∨ ∃ p2, p2 <+: b ∧ p = a ++ p2 := by
  obtain ⟨t, ht⟩ := h
  rcases List.append_eq_append_iff.mp ht with ⟨a', h1, _⟩ | ⟨c', h1, h2⟩
  · left
    exact ⟨a', h1.symm⟩
  · right
    exact ⟨c', ⟨t, h2.symm⟩, h1⟩

/-- The safety invariant is preserved by concatenation. -/
theorem safeFrag_append {a b : List Char} (ha : SafeFrag a) (hb : SafeFrag b) :
    SafeFrag (a ++ b) := by
  constructor
  · intro hinf
    rcases List.infix_iff_prefix_suffix.mp hinf with ⟨t, hpt, hts⟩
    rcases suffix_append_cases hts with htb | ⟨s1, hs1ne, hs1a, rfl⟩
    · exact hb.1 (List.infix_iff_prefix_suffix.mpr ⟨t, hpt, htb⟩)
    · rcases prefix_append_cases hpt with hp1 | ⟨p2, _, hpeq⟩
      · exact ha.1 (List.infix_iff_prefix_suffix.mpr ⟨s1, hp1, hs1a⟩)
      · exact (ha.2 s1 ((List.mem_tails s1 a).mpr hs1a) hs1ne) (hpeq ▸ ⟨p2, rfl⟩)
  · intro s hs hsne hsp
    rw [List.mem_tails] at hs
    rcases suffix_append_cases hs with hsb | ⟨s1, hs1ne, hs1a, rfl⟩
    · exact hb.2 s ((List.mem_tails s b).mpr hsb) hsne hsp
    · exact (ha.2 s1 ((List.mem_tails s1 a).mpr hs1a) hs1ne)
        ((List.prefix_append s1 b).trans hsp)

/-- A fragment that contains no `<` character satisfies the invariant, since
`<script>` and each of its non-empty prefixes start with `<`. -/
theorem safeFrag_of_no_lt {l : List Char} (h : ∀ c ∈ l, c ≠ '<') : SafeFrag l := by
  constructor
  · intro hinf
    exact h '<' (hinf.subset (by decide)) rfl
  · intro s hs hsne hsp
    rw [List.mem_tails] at hs
    obtain ⟨c, s', rfl⟩ := List.exists_cons_of_ne_nil hsne
    have hsp' : c :: s' <+: '<' :: "script>".data := hsp
    rcases List.prefix_cons_iff.mp hsp' with h1 | ⟨t, ht1, _⟩
    · exact absurd h1 (by simp)
    · have hc : c = '<' := by
        injection ht1 with hc _
      exact h c (hs.subset (List.mem_cons_self c s')) hc

/-- Escaped output never contains a raw `<`. -/
theorem escapeChar_no_lt (c : Char) : ∀ x ∈ escapeChar c, x ≠ '<' := by
  intro x hx
  unfold escapeChar at hx
  split_ifs at hx with h1 h2 h3 h4 h5
  all_goals
    simp only [List.mem_cons, List.not_mem_nil, or_false] at hx
  · rcases hx with rfl | rfl | rfl | rfl | rfl <;> decide
  · rcases hx with rfl | rfl | rfl | rfl <;> decide
  · rcases hx with rfl | rfl | rfl | rfl <;> decide
  · rcases hx with rfl | rfl | rfl | rfl | rfl | rfl <;> decide
  · rcases hx with rfl | rfl | rfl | rfl | rfl | rfl <;> decide
  · subst hx
    exact h2

/-- `html.escape` output never contains a raw `<`. -/
theorem html_escape_no_lt (s : String) : ∀ x ∈ (html_escape s).data, x ≠ '<' := by
  intro x hx
  have hx' : x ∈ s.data.flatMap escapeChar := hx
  rcases List.mem_flatMap.mp hx' with ⟨c, _, hxc⟩
  exact escapeChar_no_lt c x hxc

/-- Escaped text satisfies the safety invariant. -/
theorem safeFrag_escape (s : String) : SafeFrag (html_escape s).data :=
  safeFrag_of_no_lt (html_escape_no_lt s)

/-- Joining safe fragments with a safe separator stays safe. -/
theorem safeFrag_pyJoin (sep : String) (hsep : SafeFrag sep.data) (xs : List String)
    (hxs : ∀ x ∈ xs, SafeFrag x.data) : SafeFrag (pyJoin sep xs).data := by
  induction xs with
  | nil =>
    have hempty : SafeFrag ("" : String).data := by decide
    exact hempty
  | cons x rest ih =>
    cases rest with
    | nil => exact hxs x (by simp)
    | cons y t =>
      rw [show pyJoin sep (x :: y :: t) = x ++ sep ++ pyJoin sep (y :: t) from rfl]
      rw [String.data_append, String.data_append]
      exact safeFrag_append (safeFrag_append (hxs x (by simp)) hsep)
        (ih (fun z hz => hxs z (List.mem_cons_of_mem x hz)))

set_option maxRecDepth 16384 in
/-- Every rendered table row satisfies the safety invariant: its fixed HTML
scaffolding does, and every user-controlled part is escaped. -/
theorem safeFrag_render_row (fd : String) (m : GraphDemo.Row) :
    SafeFrag (GraphDemo.render_row fd m).data := by
  unfold GraphDemo.render_row
  simp only [String.data_append]
  repeat' apply safeFrag_append
  all_goals first
    | exact safeFrag_escape _
    | decide

set_option maxRecDepth 16384 in
/-- The whole injected rows block satisfies the safety invariant. -/
theorem safeFrag_rows_block (fd : String) (ms : List GraphDemo.Row) :
    SafeFrag (GraphDemo.rows_block fd ms).data := by
  cases ms with
  | nil =>
    show SafeFrag GraphDemo.placeholder_row.data
    decide
  | cons m rest =>
    show SafeFrag (pyJoin "\n" ((m :: rest).map (GraphDemo.render_row fd))).data
    apply safeFrag_pyJoin _ (by decide)
    intro x hx
    rw [List.mem_map] at hx
    obtain ⟨r, _, rfl⟩ := hx
    exact safeFrag_render_row fd r

/-- C7: all user-controlled text rendered into the dashboard rows (status
label, subject, folder name, timestamp) is HTML-escaped; in particular, for
any input rows containing a subject with `<script>`, that substring never
appears unescaped anywhere in the generated rows block. -/
theorem C7_no_unescaped_script (messages : List GraphDemo.Row) (folder_display : String)
    (h : ∃ m ∈ messages, strContainsB (m.subject.getD "") "<script>" = true) :
    strContainsB (GraphDemo.rows_block folder_display messages) "<script>" = false :=
  decide_eq_false (safeFrag_rows_block folder_display messages).1

/-- Witness for C7: a concrete row with a script-tag subject renders to a
block with no `<script>` occurrence. -/
theorem C7_no_unescaped_script_witness :
    strContainsB
      (GraphDemo.rows_block "DEMO for PNC"
        [{ status := GraphDemo.Label.skipped,
           subject := some "<script>alert(1)</script>",
           timestamp := some "2024-01-02 09:30 UTC" }])
      "<script>" = false :=
  C7_no_unescaped_script
    [{ status := GraphDemo.Label.skipped,
       subject := some "<script>alert(1)</script>",
       timestamp := some "2024-01-02 09:30 UTC" }]
    "DEMO for PNC"
    ⟨{ status := GraphDemo.Label.skipped,
       subject := some "<script>alert(1)</script>",
       timestamp := some "2024-01-02 09:30 UTC" },
     by simp, by decide⟩

/-- The month and day produced by `civil_from_days` are always in calendar
range. -/
theorem civil_from_days_bounds (z0 : Int) :
    1 ≤ (civil_from_days z0).2.1 ∧ (civil_from_days z0).2.1 ≤ 12 ∧
    1 ≤ (civil_from_days z0).2.2 ∧ (civil_from_days z0).2.2 ≤ 31 := by
  unfold civil_from_days
  dsimp only
  split <;> omega

/-- A successful `astimezone_utc` certifies that the converted year is within
the `datetime` range. -/
theorem astimezone_utc_guard (local_offset : Int) (dt : PyDateTime) (tot : Int)
    (h : astimezone_utc local_offset dt = some tot) :
    1 ≤ (civil_from_days (tot / 1440)).1 ∧ (civil_from_days (tot / 1440)).1 ≤ 9999 := by
  unfold astimezone_utc at h
  dsimp only at h
  split_ifs at h with hcond
  cases h
  exact hcond

/-- Evaluation of `_iso_to_display` on a non-empty input, exposing the parse
scrutinee. -/
theorem iso_to_display_eval (local_offset : Int) (str : String) (hne : str ≠ "") :
    GraphDemo.«_iso_to_display» local_offset (some str)
      = match parse_iso (strReplace str "Z" "+00:00") with
        | none => str
        | some dt =>
          match astimezone_utc local_offset dt with
          | none => str
          | some tot => strftime_display tot := by
  show (if str = "" then "" else _) = _
  rw [if_neg hne]

/-- Evaluation of `_iso_to_display` once parsing has succeeded. -/
theorem iso_to_display_eval_parsed (local_offset : Int) (str : String) (hne : str ≠ "")
    (dt : PyDateTime) (hp : parse_iso (strReplace str "Z" "+00:00") = some dt) :
    GraphDemo.«_iso_to_display» local_offset (some str)
      = match astimezone_utc local_offset dt with
        | none => str
        | some tot => strftime_display tot := by
  rw [iso_to_display_eval local_offset str hne, hp]

/-- C8: the display formatter maps a missing or empty timestamp to the empty
string; a non-empty timestamp that fails to parse, or whose conversion
overflows the datetime range (the `except` branch), passes through
unchanged; and a successfully parsed and converted timestamp renders as a
zero-padded `YYYY-MM-DD HH:MM UTC` string with in-range fields. The function
is total, so it never raises. -/
theorem C8_iso_display (local_offset : Int) (s : Option String) :
    (s.getD "" = "" → GraphDemo.«_iso_to_display» local_offset s = "")
    ∧ (∀ str, s = some str → str ≠ "" →
      (parse_iso (strReplace str "Z" "+00:00") = none →
        GraphDemo.«_iso_to_display» local_offset s = str)
      ∧ (∀ dt, parse_iso (strReplace str "Z" "+00:00") = some dt →
          astimezone_utc local_offset dt = none →
          GraphDemo.«_iso_to_display» local_offset s = str)
      ∧ (∀ dt tot, parse_iso (strReplace str "Z" "+00:00") = some dt →
          astimezone_utc local_offset dt = some tot →
          ∃ y mo d h mi : Nat,
            1 ≤ y ∧ y ≤ 9999 ∧ 1 ≤ mo ∧ mo ≤ 12 ∧ 1 ≤ d ∧ d ≤ 31 ∧ h ≤ 23 ∧ mi ≤ 59 ∧
            GraphDemo.«_iso_to_display» local_offset s
              = pad4 y ++ "-" ++ pad2 mo ++ "-" ++ pad2 d ++ " "
                ++ pad2 h ++ ":" ++ pad2 mi ++ " UTC")) := by
  constructor
  · intro h
    cases s with
    | none => rfl
    | some str =>
      have hstr : str = "" := by simpa using h
      subst hstr
      rfl
  · intro str hs hne
    subst hs
    refine ⟨?_, ?_, ?_⟩
    · intro hp
      rw [iso_to_display_eval local_offset str hne, hp]
    · intro dt hp ha
      rw [iso_to_display_eval_parsed local_offset str hne dt hp, ha]
    · intro dt tot hp ha
      have hguard := astimezone_utc_guard local_offset dt tot ha
      have hbd := civil_from_days_bounds (tot / 1440)
      have hrem0 : 0 ≤ tot % 1440 := Int.emod_nonneg tot (by norm_num)
      have hrem1 : tot % 1440 < 1440 := Int.emod_lt_of_pos tot (by norm_num)
      refine ⟨(civil_from_days (tot / 1440)).1.toNat,
              (civil_from_days (tot / 1440)).2.1.toNat,
              (civil_from_days (tot / 1440)).2.2.toNat,
              ((tot % 1440) / 60).toNat,
              ((tot % 1440) % 60).toNat,
              ?_, ?_, ?_, ?_, ?_, ?_, ?_, ?_, ?_⟩
      · omega
      · omega
      · omega
      · omega
      · omega
      · omega
      · omega
      · omega
      · rw [iso_to_display_eval_parsed local_offset str hne dt hp, ha]
        rfl

set_option maxRecDepth 4096 in
/-- Witness for C8: missing and empty timestamps render empty, and a
malformed timestamp passes through unchanged. -/
theorem C8_iso_display_witness :
    GraphDemo.«_iso_to_display» 0 none = ""
    ∧ GraphDemo.«_iso_to_display» 0 (some "") = ""
    ∧ GraphDemo.«_iso_to_display» 0 (some "not-a-date") = "not-a-date" := by
  refine ⟨(C8_iso_display 0 none).1 rfl, (C8_iso_display 0 (some "")).1 rfl, ?_⟩
  have hrepl : strReplace "not-a-date" "Z" "+00:00" = "not-a-date" := by
    simp [strReplace, pyReplace, List.isPrefixOf]
  exact ((C8_iso_display 0 (some "not-a-date")).2 "not-a-date" rfl (by decide)).1
    (by rw [hrepl]; decide)

/-- C9: the dashboard renderer is deterministic in everything but the run
timestamp: the timestamp enters the output only through substitution at the
`RUN_TIME` placeholder, so two runs on identical rows and an identical
template whose timestamp-substituted templates agree produce byte-identical
output. -/
theorem C9_render_determinism (tpl : String) (messages : List GraphDemo.Row)
    (folder_display : String) (t1 t2 : String)
    (h : strReplace tpl "{RUN_TIME}" t1 = strReplace tpl "{RUN_TIME}" t2) :
    GraphDemo.render_tailwind_dashboard tpl t1 messages folder_display
      = GraphDemo.render_tailwind_dashboard tpl t2 messages folder_display
    ∧ GraphDemo.render_tailwind_dashboard tpl t1 messages folder_display
      = strReplace (strReplace tpl "{RUN_TIME}" t1) "<!-- REPORT_DATA -->"
          (GraphDemo.rows_block folder_display messages) := by
  constructor
  · unfold GraphDemo.render_tailwind_dashboard
    rw [h]
  · rfl

/-- Witness for C9: equal run timestamps give byte-identical output. -/
theorem C9_render_determinism_witness :
    GraphDemo.render_tailwind_dashboard
      "<html>{RUN_TIME}<!-- REPORT_DATA --></html>" "2025-01-01 00:00:00 UTC" [] "DEMO for PNC"
    = GraphDemo.render_tailwind_dashboard
      "<html>{RUN_TIME}<!-- REPORT_DATA --></html>" "2025-01-01 00:00:00 UTC" [] "DEMO for PNC" :=
  (C9_render_determinism "<html>{RUN_TIME}<!-- REPORT_DATA --></html>" []
    "DEMO for PNC" "2025-01-01 00:00:00 UTC" "2025-01-01 00:00:00 UTC" rfl).1
